import Mathlib

/-!
# CoreWrapper: the bridge between the RTAB-Map engine and its ROS host

A shallow embedding of `src/rtabmap/src/CoreWrapper.cpp`.

* Every callback of `CoreWrapper` is a function on an explicit `World`: the
  queue of the event bus (`UEventsManager`), the ROS parameter server of the
  private namespace, the configuration files, the messages published on the
  three topics, and the trace of translation helpers that were invoked.
* Values that the code reads from its surroundings while one event is being
  handled (subscriber counts, the clock) are passed as `Readings`, one field
  per program point at which the code reads them.
* Library code that is not part of this file's source (default parameter table,
  configuration-file reader, `cv_bridge` conversions) is collected in
  `Collaborators` and every theorem quantifies over it.
* Console logging (`ROS_INFO`, `ROS_WARN`) has no effect on any state modelled
  here and is left out.
-/

namespace Rtabmap

/-! ## Scalars and containers -/

/-- IEEE-754 single precision number, carried as its bit pattern: the bridge
only ever copies such values, it never computes with them. -/
structure Float32 where
  bits : Nat
deriving DecidableEq, Repr

/-- Exceptions the C++ code can raise: `std::out_of_range`, thrown by the
bounds-checked accessors `std::vector::at` and `std::map::at`. -/
inductive Exception where
  | outOfRange
deriving DecidableEq, Repr

/-- Model of `std::map<K, V>`: the entries in iteration order, which the
container keeps strictly ascending by key (so keys are unique). -/
structure StdMap (K V : Type) [LT K] where
  entries : List (K × V)
  ordered : entries.Pairwise (fun a b => a.1 < b.1)

/-- Model of `std::multimap<K, V>`: the entries in iteration order, ascending
by key; a key may recur, entries of one key stay in insertion order. -/
structure StdMultimap (K V : Type) [LE K] where
  entries : List (K × V)
  ordered : entries.Pairwise (fun a b => a.1 ≤ b.1)

/-- Number of entries, `std::map::size`. -/
def StdMap.size {K V : Type} [LT K] (m : StdMap K V) : Nat :=
  m.entries.length

/-- Value stored under a key, if any (`std::map::find`). -/
def StdMap.find? {K V : Type} [LT K] [BEq K] (m : StdMap K V) (key : K) : Option V :=
  m.entries.lookup key

/-- Bounds-checked lookup `std::map::at`: throws `std::out_of_range` for a
missing key. -/
def StdMap.at {K V : Type} [LT K] [BEq K] (m : StdMap K V) (key : K) : Except Exception V :=
  match m.find? key with
  | some v => .ok v
  | none => .error .outOfRange

/-- Number of entries, `std::multimap::size`: one per (key, value) pair. -/
def StdMultimap.size {K V : Type} [LE K] (m : StdMultimap K V) : Nat :=
  m.entries.length

/-- The type `rtabmap::ParametersMap`, a `std::map<std::string, std::string>`. -/
abbrev ParametersMap := StdMap String String

/-! ## Images and messages -/

/-- The type `ros::Time`. -/
structure Time where
  sec : Nat := 0
  nsec : Nat := 0
deriving DecidableEq, Repr

/-- The message `std_msgs/Header`. -/
structure Header where
  seq : Nat := 0
  stamp : Time := {}
  frame_id : String := ""
deriving DecidableEq, Repr

/-- The message `sensor_msgs/Image`; the default value is the unpopulated image. -/
structure SensorImage where
  header : Header := {}
  height : Nat := 0
  width : Nat := 0
  encoding : String := ""
  is_bigendian : Nat := 0
  step : Nat := 0
  data : List Nat := []
deriving DecidableEq, Repr

/-- The matrix type `cv::Mat`, as far as the bridge looks at it. -/
structure Mat where
  rows : Nat := 0
  cols : Nat := 0
  nChannels : Nat := 1
  data : List Nat := []
deriving DecidableEq, Repr

/-- Test `cv::Mat::empty`: no buffer or no element. -/
def Mat.empty (m : Mat) : Bool :=
  m.data.isEmpty || m.rows * m.cols == 0

/-- Accessor `cv::Mat::channels`. -/
def Mat.channels (m : Mat) : Nat :=
  m.nChannels

/-- Deep copy `cv::Mat::clone`: the same matrix value. -/
def Mat.clone (m : Mat) : Mat :=
  m

/-- The type `cv_bridge::CvImage`. -/
structure CvImage where
  header : Header := {}
  encoding : String := ""
  image : Mat := {}
deriving DecidableEq, Repr

/-- The point type `cv::Point2f`. -/
structure Point2f where
  x : Float32
  y : Float32
deriving DecidableEq, Repr

/-- The type `cv::KeyPoint` produced by the engine. -/
structure CvKeyPoint where
  pt : Point2f
  size : Float32
  angle : Float32
  response : Float32
  octave : Int
  class_id : Int
deriving DecidableEq, Repr

/-- The message `rtabmap/KeyPoint`; the default value is what
`std::vector<rtabmap::KeyPoint>(n)` fills its slots with. -/
structure KeyPoint where
  angle : Float32 := ⟨0⟩
  response : Float32 := ⟨0⟩
  ptx : Float32 := ⟨0⟩
  pty : Float32 := ⟨0⟩
  size : Float32 := ⟨0⟩
  octave : Int := 0
  class_id : Int := 0
deriving DecidableEq, Repr

/-- The brief message `rtabmap/Info`. -/
structure Info where
  refId : Int := 0
  loopClosureId : Int := 0
deriving DecidableEq, Repr

/-- The detailed message `rtabmap/InfoEx`; a freshly constructed message has
every field at the default given here. -/
structure InfoEx where
  refId : Int := 0
  loopClosureId : Int := 0
  refImage : SensorImage := {}
  loopImage : SensorImage := {}
  posteriorKeys : List Int := []
  posteriorValues : List Float32 := []
  likelihoodKeys : List Int := []
  likelihoodValues : List Float32 := []
  weightsKeys : List Int := []
  weightsValues : List Int := []
  refWordsKeys : List Int := []
  refWordsValues : List KeyPoint := []
  loopWordsKeys : List Int := []
  loopWordsValues : List KeyPoint := []
  statsKeys : List String := []
  statsValues : List Float32 := []
deriving DecidableEq, Repr

/-- The statistics snapshot `rtabmap::Statistics` carried by an engine result. -/
structure Statistics where
  refImageId : Int
  loopClosureId : Int
  extended : Bool
  refImage : Mat
  loopImage : Mat
  posterior : StdMap Int Float32
  likelihood : StdMap Int Float32
  weights : StdMap Int Int
  refWords : StdMultimap Int CvKeyPoint
  loopWords : StdMultimap Int CvKeyPoint
  data : StdMap String Float32

/-! ## Events -/

/-- Command tags `RtabmapEventCmd::Cmd` used by the bridge. -/
inductive Cmd where
  | kCmdResetMemory
  | kCmdDumpMemory
  | kCmdDeleteMemory
  | kCmdDumpPrediction
deriving DecidableEq, Repr

/-- Events travelling on the bus (`UEvent` and the subclasses the bridge
posts or receives). -/
inductive UEvent where
  | rtabmapEvent (stats : Statistics)
  | cameraEvent (image : Mat)
  | rtabmapEventCmd (cmd : Cmd)
  | paramEvent (parameters : ParametersMap)

/-- Method `UEvent::getClassName`. -/
def UEvent.getClassName : UEvent → String
  | .rtabmapEvent _ => "RtabmapEvent"
  | .cameraEvent _ => "CameraEvent"
  | .rtabmapEventCmd _ => "RtabmapEventCmd"
  | .paramEvent _ => "ParamEvent"

/-! ## The parameter server and the world -/

/-- Values held by the ROS parameter server (`XmlRpc::XmlRpcValue`). -/
inductive XmlRpcValue where
  | str (s : String)
  | int (i : Int)
  | bool (b : Bool)
  | dbl (bits : Nat)
deriving DecidableEq, Repr

/-- The parameter server as seen through `ros::NodeHandle nh("~")`: a flat
store from parameter name to value. -/
abbrev ParamServer := String → Option XmlRpcValue

/-- Call `nh.setParam(key, value)` with a string value. -/
def ParamServer.setParam (nh : ParamServer) (key value : String) : ParamServer :=
  fun k => if k = key then some (.str value) else nh k

/-- Call `nh.getParam(key, value)` with a `std::string` receiver: succeeds only
when the key is present and holds a string. -/
def ParamServer.getParam (nh : ParamServer) (key : String) : Option String :=
  match nh key with
  | some (.str value) => some value
  | _ => none

/-- Content of a configuration file: a flat table of key=value lines. -/
abbrev IniFile := List (String × String)

/-- Translation helpers whose invocations are traced. -/
inductive Call where
  | toImageMsg
  | uKeys
  | uValues
  | keyPointCopy
deriving DecidableEq, Repr

/-- Everything the callbacks of `CoreWrapper` act on. -/
structure World where
  /-- events posted to `UEventsManager`, oldest first -/
  bus : List UEvent
  /-- the ROS parameter server -/
  paramServer : ParamServer
  /-- configuration files by path -/
  files : String → Option IniFile
  /-- messages published by `infoPub_` -/
  infoPub : List Info
  /-- messages published by `infoPubEx_` -/
  infoPubEx : List InfoEx
  /-- number of messages published by `parametersLoadedPub_` -/
  parametersLoadedPub : Nat
  /-- translation helpers invoked so far -/
  calls : List Call

/-- Call `UEventsManager::post`: the event joins the queue of the bus. -/
def World.post (w : World) (e : UEvent) : World :=
  { w with bus := w.bus ++ [e] }

/-- Values read from the surroundings while `handleEvent` runs, one field per
program point. -/
structure Readings where
  /-- Result of `infoPub_.getNumSubscribers()` in the outer test (line 172) -/
  infoGate : Nat
  /-- Result of `infoPubEx_.getNumSubscribers()` in the outer test (line 172), evaluated
  only when the first operand of the disjunction is zero -/
  infoExGate : Nat
  /-- Result of `infoPub_.getNumSubscribers()` at line 177 -/
  infoGuard : Nat
  /-- Result of `infoPubEx_.getNumSubscribers()` at line 186 -/
  infoExGuard : Nat
  /-- Result of `ros::Time::now()` at line 210 -/
  refStamp : Time
  /-- Result of `ros::Time::now()` at line 227 -/
  loopStamp : Time

/-- Library code used by `CoreWrapper` whose source is elsewhere. -/
structure Collaborators where
  /-- Table returned by `Parameters::getDefaultParameters()` -/
  getDefaultParameters : ParametersMap
  /-- Key returned by `Parameters::kRtabmapWorkingDirectory()` -/
  kRtabmapWorkingDirectory : String
  /-- Function `Rtabmap::readParameters`: from the content of the configuration file
  (if the file exists) and the table passed in, the table passed out -/
  readParameters : Option IniFile → ParametersMap → ParametersMap
  /-- Function `cv_bridge::toCvShare` -/
  toCvShare : SensorImage → CvImage
  /-- Method `cv_bridge::CvImage::toImageMsg` -/
  toImageMsg : CvImage → SensorImage

/-- Request and response of the service type `std_srvs/Empty`. -/
structure EmptySrv where
deriving DecidableEq, Repr

/-- The message `std_msgs/Empty`. -/
structure EmptyMsg where
deriving DecidableEq, Repr

/-! ## Flattening helpers of the utility library -/

/-- Modelled from the spec: `uKeys` of `utilite/UStl.h` on a `std::map` is not
part of this source; it returns the keys of the mapping as a sequence, in the
mapping's iteration order. -/
def uKeys {K V : Type} [LT K] (m : StdMap K V) : List K :=
  m.entries.map Prod.fst

/-- Modelled from the spec: `uValues` of `utilite/UStl.h` on a `std::map` is
not part of this source; it returns the values of the mapping as a sequence, in
the mapping's iteration order. -/
def uValues {K V : Type} [LT K] (m : StdMap K V) : List V :=
  m.entries.map Prod.snd

/-- Modelled from the spec: `uKeys` of `utilite/UStl.h` on a `std::multimap` is
not part of this source; it emits one key per value, not one per unique key, in
the mapping's iteration order. -/
def uKeysMulti {K V : Type} [LE K] (m : StdMultimap K V) : List K :=
  m.entries.map Prod.fst

/-! ## Parameter synchronisation (lines 73-116 and 152-166) -/

namespace CoreWrapper

/-- The loop of lines 103-110 (repeated at lines 156-163): every entry of the
table whose key the parameter server holds as a string takes the server's
value; keys are never added or removed. -/
def overrideFromServer (nh : ParamServer) (parameters : ParametersMap) : ParametersMap where
  entries := parameters.entries.map fun iter =>
    match nh.getParam iter.1 with
    | some value => (iter.1, value)
    | none => iter
  ordered := by
    rw [List.pairwise_map]
    refine parameters.ordered.imp ?_
    intro a b hab
    cases nh.getParam a.1 <;> cases nh.getParam b.1 <;> exact hab

/-- Modelled from the spec: `Rtabmap::writeParameters` is not part of this
source; the configuration file is a flat key=value table that a save
overwrites with the table it is handed. -/
def writeParameters (configFile : String) (parameters : ParametersMap)
    (files : String → Option IniFile) : String → Option IniFile :=
  fun path => if path = configFile then some parameters.entries else files path

/-- Lines 73-90: defaults, overlaid by the configuration file, are pushed key
by key into the parameter server; then the loaded signal is published. -/
def loadNodeParameters (env : Collaborators) (configFile : String) (w : World) : World :=
  let parameters := env.readParameters (w.files configFile) env.getDefaultParameters
  let nh := parameters.entries.foldl (fun nh i => nh.setParam i.1 i.2) w.paramServer
  { w with paramServer := nh, parametersLoadedPub := w.parametersLoadedPub + 1 }

/-- Lines 92-116: defaults, overridden by the values read back from the
parameter server, are handed to the configuration-file writer. The second
component is the database path of line 114, or the exception that
`parameters.at` raises there; the file has been written in either case. -/
def saveNodeParameters (env : Collaborators) (configFile : String) (w : World) :
    World × Except Exception String :=
  let parameters := overrideFromServer w.paramServer env.getDefaultParameters
  let w := { w with files := writeParameters configFile parameters w.files }
  (w, (parameters.at env.kRtabmapWorkingDirectory).map fun dir => dir ++ "/LTM.db")

/-- Lines 152-166: the table re-derived from defaults and parameter server
is posted as a `ParamEvent`. -/
def parametersUpdatedCallback (env : Collaborators) (_msg : EmptyMsg) (w : World) : World :=
  let parameters := overrideFromServer w.paramServer env.getDefaultParameters
  w.post (.paramEvent parameters)

/-! ## Frame ingest and command endpoints (lines 118-150) -/

/-- Lines 118-126: a frame with a non-empty payload is converted and posted
as a `CameraEvent`. -/
def imageReceivedCallback (env : Collaborators) (msg : SensorImage) (w : World) : World :=
  if msg.data.length ≠ 0 then
    let ptr := env.toCvShare msg
    w.post (.cameraEvent ptr.image.clone)
  else
    w

/-- Lines 128-132. -/
def resetMemoryCallback (_req _res : EmptySrv) (w : World) : Bool × World :=
  (true, w.post (.rtabmapEventCmd .kCmdResetMemory))

/-- Lines 134-138. -/
def dumpMemoryCallback (_req _res : EmptySrv) (w : World) : Bool × World :=
  (true, w.post (.rtabmapEventCmd .kCmdDumpMemory))

/-- Lines 140-144. -/
def deleteMemoryCallback (_req _res : EmptySrv) (w : World) : Bool × World :=
  (true, w.post (.rtabmapEventCmd .kCmdDeleteMemory))

/-- Lines 146-150. -/
def dumpPredictionCallback (_req _res : EmptySrv) (w : World) : Bool × World :=
  (true, w.post (.rtabmapEventCmd .kCmdDumpPrediction))

end CoreWrapper

/-! ## Statistics publisher (lines 168-282) -/

namespace CoreWrapper

/-- Write through the reference returned by `v.at(index)`: the slot is updated
in place, or `std::out_of_range` is thrown when `index` is not below the size
of the vector. -/
def assignAt (v : List KeyPoint) (index : Nat) (f : KeyPoint → KeyPoint) :
    Except Exception (List KeyPoint) :=
  match v[index]? with
  | some slot => .ok (v.set index (f slot))
  | none => .error .outOfRange

/-- State of a keypoint-copy loop: the counter `index`, the value vector being
filled, and the trace of helper invocations. -/
structure CopyState where
  index : Nat
  values : List KeyPoint
  calls : List Call

/-- The loops of lines 243-255 and 260-272 over the entries still to visit:
seven bounds-checked field writes into slot `index`, then `++index`. The
counter `int index` starts at 0 and is incremented once per entry; it is
carried as a natural number. -/
def copyKeyPoints : List (Int × CvKeyPoint) → CopyState → Except Exception CopyState
  | [], s => .ok s
  | i :: rest, s => do
    let v ← assignAt s.values s.index fun k => { k with angle := i.2.angle }
    let v ← assignAt v s.index fun k => { k with response := i.2.response }
    let v ← assignAt v s.index fun k => { k with ptx := i.2.pt.x }
    let v ← assignAt v s.index fun k => { k with pty := i.2.pt.y }
    let v ← assignAt v s.index fun k => { k with size := i.2.size }
    let v ← assignAt v s.index fun k => { k with octave := i.2.octave }
    let v ← assignAt v s.index fun k => { k with class_id := i.2.class_id }
    copyKeyPoints rest { index := s.index + 1, values := v, calls := s.calls ++ [Call.keyPointCopy] }

/-- Lines 198-211 (and 215-228): the image is wrapped with an encoding chosen
from its channel count, converted, and labelled with source and time. -/
def encodeImage (env : Collaborators) (image : Mat) (stamp : Time) : SensorImage :=
  let img : CvImage := { encoding := if image.channels = 1 then "mono8" else "bgr8", image := image }
  let rosMsg := env.toImageMsg img
  { rosMsg with header := { rosMsg.header with frame_id := "camera", stamp := stamp } }

/-- A detailed message under construction, with the trace of the translation
helpers invoked for it. -/
structure Draft where
  msg : InfoEx
  calls : List Call

/-- Lines 189-277: construction of the detailed message. -/
def buildInfoEx (env : Collaborators) (r : Readings) (stat : Statistics) : Except Exception Draft :=
  let d : Draft := ⟨{ refId := stat.refImageId, loopClosureId := stat.loopClosureId }, []⟩
  if stat.extended then do
    let d : Draft :=
      if !stat.refImage.empty then
        ⟨{ d.msg with refImage := encodeImage env stat.refImage r.refStamp }, d.calls ++ [Call.toImageMsg]⟩
      else d
    let d : Draft :=
      if !stat.loopImage.empty then
        ⟨{ d.msg with loopImage := encodeImage env stat.loopImage r.loopStamp }, d.calls ++ [Call.toImageMsg]⟩
      else d
    let d : Draft := ⟨{ d.msg with posteriorKeys := uKeys stat.posterior }, d.calls ++ [Call.uKeys]⟩
    let d : Draft := ⟨{ d.msg with posteriorValues := uValues stat.posterior }, d.calls ++ [Call.uValues]⟩
    let d : Draft := ⟨{ d.msg with likelihoodKeys := uKeys stat.likelihood }, d.calls ++ [Call.uKeys]⟩
    let d : Draft := ⟨{ d.msg with likelihoodValues := uValues stat.likelihood }, d.calls ++ [Call.uValues]⟩
    let d : Draft := ⟨{ d.msg with weightsKeys := uKeys stat.weights }, d.calls ++ [Call.uKeys]⟩
    let d : Draft := ⟨{ d.msg with weightsValues := uValues stat.weights }, d.calls ++ [Call.uValues]⟩
    let d : Draft := ⟨{ d.msg with refWordsKeys := uKeysMulti stat.refWords }, d.calls ++ [Call.uKeys]⟩
    let d : Draft := ⟨{ d.msg with refWordsValues := List.replicate stat.refWords.size {} }, d.calls⟩
    let s ← copyKeyPoints stat.refWords.entries ⟨0, d.msg.refWordsValues, d.calls⟩
    let d : Draft := ⟨{ d.msg with refWordsValues := s.values }, s.calls⟩
    let d : Draft := ⟨{ d.msg with loopWordsKeys := uKeysMulti stat.loopWords }, d.calls ++ [Call.uKeys]⟩
    let d : Draft := ⟨{ d.msg with loopWordsValues := List.replicate stat.loopWords.size {} }, d.calls⟩
    let s ← copyKeyPoints stat.loopWords.entries ⟨0, d.msg.loopWordsValues, d.calls⟩
    let d : Draft := ⟨{ d.msg with loopWordsValues := s.values }, s.calls⟩
    let d : Draft := ⟨{ d.msg with statsKeys := uKeys stat.data }, d.calls ++ [Call.uKeys]⟩
    let d : Draft := ⟨{ d.msg with statsValues := uValues stat.data }, d.calls ++ [Call.uValues]⟩
    pure d
  else
    pure d

/-- Lines 168-282: an engine result is translated into the brief and the
detailed message, each behind its own reading of the subscriber count. -/
def handleEvent (env : Collaborators) (r : Readings) (anEvent : UEvent) (w : World) :
    Except Exception World :=
  if anEvent.getClassName = "RtabmapEvent" then
    if r.infoGate ≠ 0 ∨ r.infoExGate ≠ 0 then
      match anEvent with
      | .rtabmapEvent stat => do
        let w : World :=
          if r.infoGuard ≠ 0 then
            { w with infoPub := w.infoPub ++
                [{ refId := stat.refImageId, loopClosureId := stat.loopClosureId }] }
          else w
        if r.infoExGuard ≠ 0 then
          let d ← buildInfoEx env r stat
          pure { w with infoPubEx := w.infoPubEx ++ [d.msg], calls := w.calls ++ d.calls }
        else
          pure w
      | _ => pure w
    else
      pure w
  else
    pure w

end CoreWrapper

/-! ## Reference points for the theorems -/

/-- Field-by-field image of an engine keypoint in the message type. -/
def copyOf (kp : CvKeyPoint) : KeyPoint :=
  { angle := kp.angle, response := kp.response, ptx := kp.pt.x, pty := kp.pt.y,
    size := kp.size, octave := kp.octave, class_id := kp.class_id }

/-- The detailed message that an extended snapshot is translated into, written
as one record. -/
def extendedInfoEx (env : Collaborators) (r : Readings) (stat : Statistics) : InfoEx :=
  { refId := stat.refImageId
    loopClosureId := stat.loopClosureId
    refImage :=
      if stat.refImage.empty then {} else CoreWrapper.encodeImage env stat.refImage r.refStamp
    loopImage :=
      if stat.loopImage.empty then {} else CoreWrapper.encodeImage env stat.loopImage r.loopStamp
    posteriorKeys := stat.posterior.entries.map Prod.fst
    posteriorValues := stat.posterior.entries.map Prod.snd
    likelihoodKeys := stat.likelihood.entries.map Prod.fst
    likelihoodValues := stat.likelihood.entries.map Prod.snd
    weightsKeys := stat.weights.entries.map Prod.fst
    weightsValues := stat.weights.entries.map Prod.snd
    refWordsKeys := stat.refWords.entries.map Prod.fst
    refWordsValues := stat.refWords.entries.map fun e => copyOf e.2
    loopWordsKeys := stat.loopWords.entries.map Prod.fst
    loopWordsValues := stat.loopWords.entries.map fun e => copyOf e.2
    statsKeys := stat.data.entries.map Prod.fst
    statsValues := stat.data.entries.map Prod.snd }

/-- Index-aligned flattening of a single-valued mapping: both sequences have
one element per entry, and element `i` of each comes from entry `i`; the keys
ascend strictly. -/
def MapFlattened {K V : Type} [LT K] (m : StdMap K V) (keys : List K) (values : List V) : Prop :=
  keys.length = m.size ∧ values.length = m.size ∧ keys.zip values = m.entries ∧
    keys.Pairwise (fun a b => a < b)

/-- Index-aligned flattening of a word multimap: both sequences have one element
per (key, keypoint) entry, and at every index the key is the entry's key and the
value carries each of the seven fields of the entry's keypoint. -/
def WordsFlattened (m : StdMultimap Int CvKeyPoint) (keys : List Int) (values : List KeyPoint) :
    Prop :=
  keys.length = m.size ∧ values.length = m.size ∧
    ∀ (i : Nat) (e : Int × CvKeyPoint), m.entries[i]? = some e →
      keys[i]? = some e.1 ∧
      values[i]? = some
        { angle := e.2.angle, response := e.2.response, ptx := e.2.pt.x, pty := e.2.pt.y,
          size := e.2.size, octave := e.2.octave, class_id := e.2.class_id }

/-- The two outbound statistics channels. -/
inductive Channel where
  | brief
  | detailed
deriving DecidableEq, Repr

/-- Channels that gained a message between two worlds. -/
def publishedOn (w w' : World) : List Channel :=
  (if w.infoPub.length < w'.infoPub.length then [Channel.brief] else []) ++
    (if w.infoPubEx.length < w'.infoPubEx.length then [Channel.detailed] else [])

/-! ## Sample data -/

/-- Modelled from the spec: the overlay `defaults ⊕ fileOverrides` of the load
step; file values win for keys present in both, keys that only the file has
are dropped. Used as the sample configuration-file reader. -/
def overlay (file : Option IniFile) (parameters : ParametersMap) : ParametersMap where
  entries := parameters.entries.map fun e =>
    match (file.getD []).lookup e.1 with
    | some value => (e.1, value)
    | none => e
  ordered := by
    rw [List.pairwise_map]
    refine parameters.ordered.imp ?_
    intro a b hab
    cases (file.getD []).lookup a.1 <;> cases (file.getD []).lookup b.1 <;> exact hab

/-- A small default table. -/
def sampleDefaults : ParametersMap :=
  ⟨[("Kp/MaxFeatures", "400"), ("Rtabmap/WorkingDirectory", "/home/robot")], by
    simp only [List.pairwise_cons, List.mem_cons, List.mem_singleton, forall_eq_or_imp,
      forall_eq, List.not_mem_nil, false_implies, implies_true, List.Pairwise.nil, and_true,
      String.lt_iff_toList_lt]
    decide⟩

/-- Sample collaborators: the small default table, the overlay reader, and
conversions that carry the pixel buffer across unchanged. -/
def sampleEnv : Collaborators where
  getDefaultParameters := sampleDefaults
  kRtabmapWorkingDirectory := "Rtabmap/WorkingDirectory"
  readParameters := overlay
  toCvShare := fun msg =>
    { header := msg.header, encoding := msg.encoding,
      image := { rows := msg.height, cols := msg.width, nChannels := 1, data := msg.data } }
  toImageMsg := fun img =>
    { header := img.header, height := img.image.rows, width := img.image.cols,
      encoding := img.encoding, step := img.image.cols * img.image.nChannels,
      data := img.image.data }

/-- A world in which nothing has happened yet: empty bus, empty parameter
server, no files, nothing published. -/
def emptyWorld : World :=
  { bus := [], paramServer := fun _ => none, files := fun _ => none, infoPub := [],
    infoPubEx := [], parametersLoadedPub := 0, calls := [] }

/-- A world with a configuration file that overrides one default and names
one unknown key, and a parameter server holding stale values. -/
def sampleWorld : World :=
  { emptyWorld with
    files := fun path =>
      if path = "rtabmap.ini" then some [("Kp/MaxFeatures", "250"), ("Unknown/Key", "1")]
      else none
    paramServer := fun k =>
      if k = "Kp/MaxFeatures" then some (.int 7)
      else if k = "Rtabmap/WorkingDirectory" then some (.str "/stale")
      else none }

/-- Two sample keypoints. -/
def kp1 : CvKeyPoint :=
  { pt := ⟨⟨11⟩, ⟨12⟩⟩, size := ⟨13⟩, angle := ⟨14⟩, response := ⟨15⟩, octave := 2, class_id := -1 }

/-- Second sample keypoint. -/
def kp2 : CvKeyPoint :=
  { pt := ⟨⟨21⟩, ⟨22⟩⟩, size := ⟨23⟩, angle := ⟨24⟩, response := ⟨25⟩, octave := 0, class_id := 4 }

/-- A one-pixel grey image. -/
def samplePixel : Mat :=
  { rows := 1, cols := 1, nChannels := 1, data := [200] }

/-- Snapshot of scenario B with `extended = false`, whose images and mappings
are nevertheless filled. -/
def sampleBrief : Statistics :=
  { refImageId := 5, loopClosureId := -1, extended := false,
    refImage := samplePixel, loopImage := samplePixel,
    posterior := ⟨[(1, ⟨3⟩), (2, ⟨4⟩)], by decide⟩,
    likelihood := ⟨[(1, ⟨5⟩)], by decide⟩,
    weights := ⟨[(1, 9)], by decide⟩,
    refWords := ⟨[(7, kp1), (7, kp2)], by decide⟩,
    loopWords := ⟨[(3, kp2)], by decide⟩,
    data := ⟨[("Loop/Id", ⟨6⟩)], by decide⟩ }

/-- Extended snapshot of scenario C: word 7 carries two keypoints. -/
def sampleExtended : Statistics :=
  { sampleBrief with extended := true }

/-- Readings with no subscriber at the outer test, whatever comes later. -/
def readingsNone : Readings :=
  { infoGate := 0, infoExGate := 0, infoGuard := 3, infoExGuard := 2, refStamp := ⟨10, 0⟩,
    loopStamp := ⟨10, 5⟩ }

/-- Readings with one subscriber on the detailed channel only, throughout. -/
def readingsDetailed : Readings :=
  { infoGate := 0, infoExGate := 1, infoGuard := 0, infoExGuard := 1, refStamp := ⟨10, 0⟩,
    loopStamp := ⟨10, 5⟩ }

/-- Readings with one subscriber on each channel, throughout. -/
def readingsBoth : Readings :=
  { infoGate := 1, infoExGate := 1, infoGuard := 1, infoExGuard := 1, refStamp := ⟨10, 0⟩,
    loopStamp := ⟨10, 5⟩ }

/-- Readings that start like `readingsBoth`, after which both subscribers leave
before the per-channel guards are evaluated. -/
def readingsLeft : Readings :=
  { infoGate := 1, infoExGate := 1, infoGuard := 0, infoExGuard := 0, refStamp := ⟨10, 0⟩,
    loopStamp := ⟨10, 5⟩ }

/-- An inbound frame with an empty payload. -/
def emptyFrame : SensorImage :=
  { height := 0, width := 0, encoding := "mono8", data := [] }

/-- An inbound frame of two grey pixels. -/
def sampleFrame : SensorImage :=
  { height := 1, width := 2, encoding := "mono8", step := 2, data := [17, 18] }

/-! ## Auxiliary lemmas -/

namespace CoreWrapper

theorem assignAt_append (pre : List KeyPoint) (slot : KeyPoint) (tl : List KeyPoint)
    (f : KeyPoint → KeyPoint) :
    assignAt (pre ++ slot :: tl) pre.length f = .ok (pre ++ f slot :: tl) := by
  have hget : (pre ++ slot :: tl)[pre.length]? = some slot := by
    induction pre with
    | nil => simp
    | cons a pre ih => simpa using ih
  have hset : (pre ++ slot :: tl).set pre.length (f slot) = pre ++ f slot :: tl := by
    induction pre with
    | nil => simp
    | cons a pre ih => simp
  simp only [assignAt, hget, hset]

theorem copyKeyPoints_fill (entries : List (Int × CvKeyPoint)) (pre : List KeyPoint)
    (calls : List Call) :
    copyKeyPoints entries ⟨pre.length, pre ++ List.replicate entries.length ({} : KeyPoint), calls⟩
      = .ok ⟨pre.length + entries.length, pre ++ entries.map (fun e => copyOf e.2),
              calls ++ List.replicate entries.length Call.keyPointCopy⟩ := by
  induction entries generalizing pre calls with
  | nil => simp [copyKeyPoints]
  | cons i rest ih =>
    have h := ih (pre ++ [copyOf i.2]) (calls ++ [Call.keyPointCopy])
    simp only [List.length_append, List.length_singleton, List.append_assoc, List.singleton_append] at h
    simp only [copyKeyPoints, List.length_cons, List.replicate_succ, assignAt_append, bind, Except.bind]
    rw [show ({ angle := i.2.angle, response := i.2.response, ptx := i.2.pt.x, pty := i.2.pt.y, size := i.2.size, octave := i.2.octave, class_id := i.2.class_id } : KeyPoint) = copyOf i.2 from rfl] at *
    rw [h]
    simp [Nat.add_assoc, Nat.add_comm 1]

theorem copyKeyPoints_start (m : StdMultimap Int CvKeyPoint) (calls : List Call) :
    copyKeyPoints m.entries ⟨0, List.replicate m.size ({} : KeyPoint), calls⟩
      = .ok ⟨m.size, m.entries.map (fun e => copyOf e.2),
              calls ++ List.replicate m.size Call.keyPointCopy⟩ := by
  simpa [StdMultimap.size] using copyKeyPoints_fill m.entries [] calls

theorem buildInfoEx_extended (env : Collaborators) (r : Readings) (stat : Statistics)
    (hext : stat.extended = true) :
    ∃ calls, buildInfoEx env r stat = .ok ⟨extendedInfoEx env r stat, calls⟩ := by
  cases href : stat.refImage.empty <;> cases hloop : stat.loopImage.empty <;>
    simp [buildInfoEx, hext, href, hloop, bind, Except.bind, copyKeyPoints_start, pure,
      Except.pure, extendedInfoEx, uKeys, uValues, uKeysMulti]

theorem buildInfoEx_brief (env : Collaborators) (r : Readings) (stat : Statistics)
    (hext : stat.extended = false) :
    buildInfoEx env r stat
      = .ok ⟨{ refId := stat.refImageId, loopClosureId := stat.loopClosureId }, []⟩ := by
  simp [buildInfoEx, hext, pure, Except.pure]

theorem lookup_none_of_lt (key : String) (entries : List (String × String))
    (h : ∀ e ∈ entries, key < e.1) : entries.lookup key = none := by
  induction entries with
  | nil => rfl
  | cons e rest ih =>
    have hne : (key == e.1) = false := by
      simpa using ne_of_lt (h e (List.mem_cons_self _ _))
    rw [List.lookup_cons, hne]
    exact ih fun e' he' => h e' (List.mem_cons_of_mem _ he')

theorem getParam_setParam (nh : ParamServer) (key value k : String) :
    (nh.setParam key value).getParam k = if k = key then some value else nh.getParam k := by
  unfold ParamServer.getParam ParamServer.setParam
  by_cases hk : k = key <;> simp [hk]

theorem getParam_foldl_setParam (entries : List (String × String))
    (hord : entries.Pairwise (fun a b => a.1 < b.1)) (nh : ParamServer) (k : String) :
    (entries.foldl (fun nh i => nh.setParam i.1 i.2) nh).getParam k
      = match entries.lookup k with
        | some v => some v
        | none => nh.getParam k := by
  induction entries generalizing nh with
  | nil => rfl
  | cons e rest ih =>
    rw [List.pairwise_cons] at hord
    rw [List.foldl_cons, ih hord.2, getParam_setParam, List.lookup_cons]
    by_cases hk : k = e.1
    · subst hk
      rw [lookup_none_of_lt e.1 rest hord.1]
      simp
    · have hne : (k == e.1) = false := by simpa using hk
      simp [hk, hne]

theorem lookup_overrideFromServer (nh : ParamServer) (parameters : ParametersMap) (k : String) :
    (overrideFromServer nh parameters).find? k
      = (parameters.find? k).map fun d => (nh.getParam k).getD d := by
  unfold StdMap.find? overrideFromServer
  simp only
  generalize parameters.entries = entries
  induction entries with
  | nil => rfl
  | cons e rest ih =>
    rw [List.map_cons, List.lookup_cons, List.lookup_cons]
    by_cases hk : k = e.1
    · subst hk
      cases hg : nh.getParam e.1 <;> simp
    · have hne : (k == e.1) = false := by simpa using hk
      cases hg : nh.getParam e.1 <;> simp [hne, ih]

theorem keys_overrideFromServer (nh : ParamServer) (parameters : ParametersMap) :
    (overrideFromServer nh parameters).entries.map Prod.fst = parameters.entries.map Prod.fst := by
  unfold overrideFromServer
  simp only [List.map_map]
  apply List.map_congr_left
  intro e _
  simp only [Function.comp]
  cases nh.getParam e.1 <;> rfl

theorem zip_fst_snd {K V : Type} (entries : List (K × V)) :
    (entries.map Prod.fst).zip (entries.map Prod.snd) = entries := by
  induction entries with
  | nil => rfl
  | cons e rest ih => simp [ih]

theorem mapFlattened_entries {K V : Type} [LT K] (m : StdMap K V) :
    MapFlattened m (m.entries.map Prod.fst) (m.entries.map Prod.snd) := by
  refine ⟨by simp [StdMap.size], by simp [StdMap.size], zip_fst_snd _, ?_⟩
  rw [List.pairwise_map]
  exact m.ordered

theorem wordsFlattened_entries (m : StdMultimap Int CvKeyPoint) :
    WordsFlattened m (m.entries.map Prod.fst) (m.entries.map fun e => copyOf e.2) := by
  refine ⟨by simp [StdMultimap.size], by simp [StdMultimap.size], ?_⟩
  intro i e he
  simp [List.getElem?_map, he, copyOf]

theorem handleEvent_rtabmapEvent (env : Collaborators) (r : Readings) (stat : Statistics)
    (w : World) :
    handleEvent env r (.rtabmapEvent stat) w =
      if r.infoGate ≠ 0 ∨ r.infoExGate ≠ 0 then
        (if r.infoExGuard ≠ 0 then
          (buildInfoEx env r stat).map fun d =>
            { (if r.infoGuard ≠ 0 then
                { w with infoPub := w.infoPub ++
                    [{ refId := stat.refImageId, loopClosureId := stat.loopClosureId }] }
               else w) with
              infoPubEx := w.infoPubEx ++ [d.msg], calls := w.calls ++ d.calls }
        else
          .ok (if r.infoGuard ≠ 0 then
                { w with infoPub := w.infoPub ++
                    [{ refId := stat.refImageId, loopClosureId := stat.loopClosureId }] }
               else w))
      else .ok w := by
  unfold handleEvent
  simp only [UEvent.getClassName, if_true]
  by_cases hg : r.infoGate ≠ 0 ∨ r.infoExGate ≠ 0
  · rw [if_pos hg, if_pos hg]
    by_cases hx : r.infoExGuard ≠ 0
    · simp only [if_pos hx, bind, Except.bind, pure, Except.pure, Except.map]
      by_cases hi : r.infoGuard ≠ 0
      · simp only [if_pos hi]
      · simp only [if_neg hi]
    · simp only [if_neg hx, bind, Except.bind, pure, Except.pure]
  · rw [if_neg hg, if_neg hg]
    rfl

theorem buildInfoEx_total (env : Collaborators) (r : Readings) (stat : Statistics) :
    ∃ d, buildInfoEx env r stat = .ok d := by
  cases hext : stat.extended
  · exact ⟨_, buildInfoEx_brief env r stat hext⟩
  · obtain ⟨calls, h⟩ := buildInfoEx_extended env r stat hext
    exact ⟨_, h⟩

end CoreWrapper

/-! ## Statistics publisher: theorems -/

open CoreWrapper

/-- C1: whatever the event and the statistics it carries, when the reading of
the brief channel's subscriber count and the reading of the detailed channel's
subscriber count at the outer test are both 0, `handleEvent` returns the world
untouched: nothing is published on either channel and no translation helper
(image encoding, key/value flattening, keypoint copy) is invoked. -/
theorem handleEvent_without_subscribers (env : Collaborators) (r : Readings) (anEvent : UEvent)
    (w : World) (hInfo : r.infoGate = 0) (hInfoEx : r.infoExGate = 0) :
    handleEvent env r anEvent w = .ok w := by
  have hgate : ¬ (r.infoGate ≠ 0 ∨ r.infoExGate ≠ 0) := by simp [hInfo, hInfoEx]
  unfold handleEvent
  rw [if_neg hgate]
  split <;> rfl

/-- C1 at a concrete input: an extended snapshot with images and words, both
counts 0 at the outer test. -/
theorem handleEvent_without_subscribers_witness :
    readingsNone.infoGate = 0 ∧ readingsNone.infoExGate = 0 ∧
      handleEvent sampleEnv readingsNone (.rtabmapEvent sampleExtended) sampleWorld
        = .ok sampleWorld :=
  ⟨rfl, rfl,
    handleEvent_without_subscribers sampleEnv readingsNone (.rtabmapEvent sampleExtended)
      sampleWorld rfl rfl⟩

/-- C2: for a snapshot with `extended = false`, once the outer test has passed
and the detailed channel's count read at its guard is at least 1, the detailed
message published carries `refId` and `loopClosureId` of the snapshot and every
other field at its default: both images unpopulated and all twelve key/value
sequences empty, whatever the snapshot's images and mappings hold; no
translation helper is invoked. -/
theorem handleEvent_not_extended (env : Collaborators) (r : Readings) (stat : Statistics)
    (w : World) (hext : stat.extended = false)
    (hgate : r.infoGate ≠ 0 ∨ r.infoExGate ≠ 0) (hsub : 1 ≤ r.infoExGuard) :
    ∃ w', handleEvent env r (.rtabmapEvent stat) w = .ok w' ∧
      w'.infoPubEx = w.infoPubEx ++
        [{ refId := stat.refImageId, loopClosureId := stat.loopClosureId,
           refImage := {}, loopImage := {},
           posteriorKeys := [], posteriorValues := [],
           likelihoodKeys := [], likelihoodValues := [],
           weightsKeys := [], weightsValues := [],
           refWordsKeys := [], refWordsValues := [],
           loopWordsKeys := [], loopWordsValues := [],
           statsKeys := [], statsValues := [] }] ∧
      w'.calls = w.calls := by
  have hx : r.infoExGuard ≠ 0 := by omega
  rw [handleEvent_rtabmapEvent, if_pos hgate, if_pos hx, buildInfoEx_brief env r stat hext]
  exact ⟨_, rfl, rfl, by simp⟩

/-- C2 at scenario B: snapshot with refId 5, loopClosureId -1, `extended = false`
and one subscriber on the detailed channel. -/
theorem handleEvent_not_extended_witness :
    sampleBrief.extended = false ∧
      (readingsDetailed.infoGate ≠ 0 ∨ readingsDetailed.infoExGate ≠ 0) ∧
      1 ≤ readingsDetailed.infoExGuard ∧
      ∃ w', handleEvent sampleEnv readingsDetailed (.rtabmapEvent sampleBrief) emptyWorld
          = .ok w' ∧
        w'.infoPubEx = [] ++ [({ refId := 5, loopClosureId := -1 } : InfoEx)] ∧
        w'.calls = [] :=
  ⟨rfl, Or.inr (by decide), by decide,
    handleEvent_not_extended sampleEnv readingsDetailed sampleBrief emptyWorld rfl
      (Or.inr (by decide)) (by decide)⟩

/-- C3: for an extended snapshot, once the outer test has passed and the
detailed channel's count read at its guard is non-zero, the detailed message
published holds, for `refWords` and for `loopWords`, a key sequence and a
keypoint sequence whose lengths equal the number of (key, keypoint) entries of
the multimap (one key per value), and at every index `i` the key is the key of
the `i`-th entry in iteration order and the keypoint has angle, response, ptx,
pty, size, octave and class_id equal to those of that entry's keypoint. -/
theorem handleEvent_words_flattened (env : Collaborators) (r : Readings) (stat : Statistics)
    (w : World) (hext : stat.extended = true)
    (hgate : r.infoGate ≠ 0 ∨ r.infoExGate ≠ 0) (hsub : r.infoExGuard ≠ 0) :
    ∃ w' msg, handleEvent env r (.rtabmapEvent stat) w = .ok w' ∧
      w'.infoPubEx = w.infoPubEx ++ [msg] ∧
      WordsFlattened stat.refWords msg.refWordsKeys msg.refWordsValues ∧
      WordsFlattened stat.loopWords msg.loopWordsKeys msg.loopWordsValues := by
  obtain ⟨calls, hbuild⟩ := buildInfoEx_extended env r stat hext
  rw [handleEvent_rtabmapEvent, if_pos hgate, if_pos hsub, hbuild]
  exact ⟨_, extendedInfoEx env r stat, rfl, rfl, wordsFlattened_entries stat.refWords,
    wordsFlattened_entries stat.loopWords⟩

/-- C3 at scenario C: `refWords` maps word 7 to the keypoints `kp1`, `kp2`. -/
theorem handleEvent_words_flattened_witness :
    sampleExtended.extended = true ∧
      (readingsDetailed.infoGate ≠ 0 ∨ readingsDetailed.infoExGate ≠ 0) ∧
      readingsDetailed.infoExGuard ≠ 0 ∧
      sampleExtended.refWords.entries = [(7, kp1), (7, kp2)] ∧
      ∃ w' msg, handleEvent sampleEnv readingsDetailed (.rtabmapEvent sampleExtended) emptyWorld
          = .ok w' ∧
        w'.infoPubEx = [] ++ [msg] ∧
        WordsFlattened sampleExtended.refWords msg.refWordsKeys msg.refWordsValues ∧
        WordsFlattened sampleExtended.loopWords msg.loopWordsKeys msg.loopWordsValues :=
  ⟨rfl, Or.inr (by decide), by decide, rfl,
    handleEvent_words_flattened sampleEnv readingsDetailed sampleExtended emptyWorld rfl
      (Or.inr (by decide)) (by decide)⟩

/-- C4: for an extended snapshot, once the outer test has passed and the
detailed channel's count read at its guard is non-zero, the detailed message
published holds, for each of `posterior`, `likelihood`, `weights` and `data`, a
key sequence and a value sequence of the same length as the mapping, whose
`i`-th elements are key and value of the mapping's `i`-th entry in iteration
order (ascending key); an empty mapping therefore gives two empty sequences. -/
theorem handleEvent_maps_flattened (env : Collaborators) (r : Readings) (stat : Statistics)
    (w : World) (hext : stat.extended = true)
    (hgate : r.infoGate ≠ 0 ∨ r.infoExGate ≠ 0) (hsub : r.infoExGuard ≠ 0) :
    ∃ w' msg, handleEvent env r (.rtabmapEvent stat) w = .ok w' ∧
      w'.infoPubEx = w.infoPubEx ++ [msg] ∧
      MapFlattened stat.posterior msg.posteriorKeys msg.posteriorValues ∧
      MapFlattened stat.likelihood msg.likelihoodKeys msg.likelihoodValues ∧
      MapFlattened stat.weights msg.weightsKeys msg.weightsValues ∧
      MapFlattened stat.data msg.statsKeys msg.statsValues := by
  obtain ⟨calls, hbuild⟩ := buildInfoEx_extended env r stat hext
  rw [handleEvent_rtabmapEvent, if_pos hgate, if_pos hsub, hbuild]
  exact ⟨_, extendedInfoEx env r stat, rfl, rfl, mapFlattened_entries stat.posterior,
    mapFlattened_entries stat.likelihood, mapFlattened_entries stat.weights,
    mapFlattened_entries stat.data⟩

/-- C4 at a concrete input: posterior with two entries, one subscriber on the
detailed channel. -/
theorem handleEvent_maps_flattened_witness :
    sampleExtended.extended = true ∧
      (readingsDetailed.infoGate ≠ 0 ∨ readingsDetailed.infoExGate ≠ 0) ∧
      readingsDetailed.infoExGuard ≠ 0 ∧
      sampleExtended.posterior.entries = [(1, ⟨3⟩), (2, ⟨4⟩)] ∧
      ∃ w' msg, handleEvent sampleEnv readingsDetailed (.rtabmapEvent sampleExtended) emptyWorld
          = .ok w' ∧
        w'.infoPubEx = [] ++ [msg] ∧
        MapFlattened sampleExtended.posterior msg.posteriorKeys msg.posteriorValues ∧
        MapFlattened sampleExtended.likelihood msg.likelihoodKeys msg.likelihoodValues ∧
        MapFlattened sampleExtended.weights msg.weightsKeys msg.weightsValues ∧
        MapFlattened sampleExtended.data msg.statsKeys msg.statsValues :=
  ⟨rfl, Or.inr (by decide), by decide, rfl,
    handleEvent_maps_flattened sampleEnv readingsDetailed sampleExtended emptyWorld rfl
      (Or.inr (by decide)) (by decide)⟩

/-- Scenario C evaluated: the published detailed message has the word keys
7, 7 and the keypoints `kp1`, `kp2` in that order. -/
theorem scenario_C_evaluated :
    (handleEvent sampleEnv readingsDetailed (.rtabmapEvent sampleExtended) emptyWorld).map
        (fun w => w.infoPubEx.map fun m => (m.refWordsKeys, m.refWordsValues))
      = .ok [([7, 7], [copyOf kp1, copyOf kp2])] := by
  rfl

/-! ## Parameter synchronisation: theorems -/

/-- C5: load/save round trip. Whatever the defaults, the configuration file and
the initial content of the parameter server, after `loadNodeParameters` has
pushed the merged table (what the configuration-file reader returns for
the default table) and `saveNodeParameters` has run on the resulting world,
the table handed to the configuration-file writer holds, for every key `k` of
the default table, exactly the value `v` that the merged table holds for `k`. -/
theorem load_save_round_trip (env : Collaborators) (configFile : String) (w : World)
    (k v : String) (hdefault : env.getDefaultParameters.find? k ≠ none)
    (hmerged : (env.readParameters (w.files configFile) env.getDefaultParameters).find? k
      = some v) :
    ∃ table,
      (saveNodeParameters env configFile (loadNodeParameters env configFile w)).1.files configFile
        = some table ∧
      table.lookup k = some v := by
  refine ⟨(overrideFromServer (loadNodeParameters env configFile w).paramServer
    env.getDefaultParameters).entries, ?_, ?_⟩
  · simp [saveNodeParameters, writeParameters]
  · have hserver : (loadNodeParameters env configFile w).paramServer.getParam k = some v := by
      unfold StdMap.find? at hmerged
      simp only [loadNodeParameters]
      rw [getParam_foldl_setParam _
        (env.readParameters (w.files configFile) env.getDefaultParameters).ordered, hmerged]
    have h := lookup_overrideFromServer (loadNodeParameters env configFile w).paramServer
      env.getDefaultParameters k
    rw [hserver] at h
    obtain ⟨d, hd⟩ := Option.ne_none_iff_exists'.mp hdefault
    rw [hd] at h
    simpa [StdMap.find?] using h

/-- C5 at a concrete input: the file overrides `Kp/MaxFeatures` to 250 while
the parameter server starts with an integer under that key. -/
theorem load_save_round_trip_witness :
    sampleEnv.getDefaultParameters.find? "Kp/MaxFeatures" ≠ none ∧
      (sampleEnv.readParameters (sampleWorld.files "rtabmap.ini")
        sampleEnv.getDefaultParameters).find? "Kp/MaxFeatures" = some "250" ∧
      ∃ table,
        (saveNodeParameters sampleEnv "rtabmap.ini"
          (loadNodeParameters sampleEnv "rtabmap.ini" sampleWorld)).1.files "rtabmap.ini"
          = some table ∧
        table.lookup "Kp/MaxFeatures" = some "250" :=
  ⟨by decide, by decide,
    load_save_round_trip sampleEnv "rtabmap.ini" sampleWorld "Kp/MaxFeatures" "250"
      (by decide) (by decide)⟩

/-- C6: whatever the defaults and the content of the parameter server,
`parametersUpdatedCallback` appends exactly one event to the bus, a `ParamEvent`,
and leaves the rest of the world alone; the event's table has the keys of
the default table, in the same order, and looking up any key `k` in it gives
nothing when the default table lacks `k`, the server's string value for `k`
when the server holds a string under `k`, and the default value of `k`
otherwise. -/
theorem parametersUpdatedCallback_posts_merged (env : Collaborators) (msg : EmptyMsg)
    (w : World) :
    ∃ table : ParametersMap,
      parametersUpdatedCallback env msg w = { w with bus := w.bus ++ [UEvent.paramEvent table] } ∧
      table.entries.map Prod.fst = env.getDefaultParameters.entries.map Prod.fst ∧
      ∀ k, table.find? k = (env.getDefaultParameters.find? k).map fun d =>
        match w.paramServer k with
        | some (.str value) => value
        | _ => d := by
  refine ⟨overrideFromServer w.paramServer env.getDefaultParameters, rfl,
    keys_overrideFromServer _ _, ?_⟩
  intro k
  rw [lookup_overrideFromServer]
  congr 1
  funext d
  unfold ParamServer.getParam
  split <;> simp_all

/-! ## Command endpoints and frame ingest: theorems -/

/-- C7: each of the four command endpoints, for every request and every world,
returns true and appends exactly one event to the bus, leaving the rest of the
world alone; the event is the control command tagged `kCmdResetMemory`,
`kCmdDeleteMemory`, `kCmdDumpMemory` and `kCmdDumpPrediction` respectively, and
these four tags are pairwise distinct. -/
theorem command_callbacks_post_one (req res : EmptySrv) (w : World) :
    resetMemoryCallback req res w
        = (true, { w with bus := w.bus ++ [UEvent.rtabmapEventCmd Cmd.kCmdResetMemory] }) ∧
      deleteMemoryCallback req res w
        = (true, { w with bus := w.bus ++ [UEvent.rtabmapEventCmd Cmd.kCmdDeleteMemory] }) ∧
      dumpMemoryCallback req res w
        = (true, { w with bus := w.bus ++ [UEvent.rtabmapEventCmd Cmd.kCmdDumpMemory] }) ∧
      dumpPredictionCallback req res w
        = (true, { w with bus := w.bus ++ [UEvent.rtabmapEventCmd Cmd.kCmdDumpPrediction] }) ∧
      [Cmd.kCmdResetMemory, Cmd.kCmdDeleteMemory, Cmd.kCmdDumpMemory,
        Cmd.kCmdDumpPrediction].Pairwise (fun a b => a ≠ b) :=
  ⟨rfl, rfl, rfl, rfl, by decide⟩

/-- C8: for every inbound frame, `imageReceivedCallback` leaves the world
untouched (posts nothing) when the frame's payload is empty, and otherwise
appends exactly one event to the bus, the `CameraEvent` carrying the image that
the decoder returns for the frame. -/
theorem imageReceivedCallback_posts (env : Collaborators) (msg : SensorImage) (w : World) :
    (msg.data = [] → imageReceivedCallback env msg w = w) ∧
      (msg.data ≠ [] → imageReceivedCallback env msg w
        = { w with bus := w.bus ++ [UEvent.cameraEvent (env.toCvShare msg).image] }) := by
  constructor
  · intro h
    simp [imageReceivedCallback, h]
  · intro h
    have hlen : msg.data.length ≠ 0 := by simpa using h
    simp only [imageReceivedCallback, if_pos hlen]
    rfl

/-- C8 at scenario A (empty payload) and at a frame of two pixels. -/
theorem imageReceivedCallback_posts_witness :
    (emptyFrame.data = [] ∧ imageReceivedCallback sampleEnv emptyFrame emptyWorld = emptyWorld) ∧
      (sampleFrame.data ≠ [] ∧ imageReceivedCallback sampleEnv sampleFrame emptyWorld
        = { emptyWorld with
            bus := emptyWorld.bus ++ [UEvent.cameraEvent (sampleEnv.toCvShare sampleFrame).image] }) :=
  ⟨⟨rfl, (imageReceivedCallback_posts sampleEnv emptyFrame emptyWorld).1 rfl⟩,
    ⟨by decide, (imageReceivedCallback_posts sampleEnv sampleFrame emptyWorld).2 (by decide)⟩⟩

/-! ## Subscriber gating and the copy loops: theorems -/

/-- C9 refuted as stated: two runs on the same event and world whose readings
at the outer test agree (one subscriber on each channel) publish on different
sets of channels, because the counts are read again at lines 177 and 186: with
the later readings still 1 both channels are published on, with the later
readings 0 none is. -/
theorem handleEvent_rereads_counts :
    readingsBoth.infoGate = readingsLeft.infoGate ∧
      readingsBoth.infoExGate = readingsLeft.infoExGate ∧
      (handleEvent sampleEnv readingsBoth (.rtabmapEvent sampleBrief) emptyWorld).map
          (publishedOn emptyWorld) = .ok [Channel.brief, Channel.detailed] ∧
      (handleEvent sampleEnv readingsLeft (.rtabmapEvent sampleBrief) emptyWorld).map
          (publishedOn emptyWorld) = .ok [] :=
  ⟨rfl, rfl, rfl, rfl⟩

/-- C9 amended: for every engine-result event `handleEvent` returns, and the
brief and the detailed message are published independently: a channel is
published on exactly when the outer test on the first readings passed (brief
count non-zero, or else detailed count non-zero) and the count read again at
that channel's own guard is non-zero. When each guard reads the same value as
the outer test did, the channels published on are exactly those with at least
one subscriber at the first reading. -/
theorem handleEvent_channels (env : Collaborators) (r : Readings) (stat : Statistics)
    (w : World) :
    ∃ w', handleEvent env r (.rtabmapEvent stat) w = .ok w' ∧
      publishedOn w w' =
        (if (r.infoGate ≠ 0 ∨ r.infoExGate ≠ 0) ∧ r.infoGuard ≠ 0 then [Channel.brief] else []) ++
        (if (r.infoGate ≠ 0 ∨ r.infoExGate ≠ 0) ∧ r.infoExGuard ≠ 0 then [Channel.detailed]
          else []) ∧
      (r.infoGuard = r.infoGate → r.infoExGuard = r.infoExGate →
        publishedOn w w' =
          (if r.infoGate ≠ 0 then [Channel.brief] else []) ++
          (if r.infoExGate ≠ 0 then [Channel.detailed] else [])) := by
  obtain ⟨d, hd⟩ := buildInfoEx_total env r stat
  rw [handleEvent_rtabmapEvent, hd]
  by_cases hi : r.infoGate = 0 <;> by_cases hx : r.infoExGate = 0 <;>
    by_cases hgi : r.infoGuard = 0 <;> by_cases hgx : r.infoExGuard = 0 <;>
    simp only [hi, hx, hgi, hgx, ne_eq, not_true_eq_false, not_false_eq_true,
      or_self, or_true, true_or, and_true, and_false, and_self, if_true, if_false,
      Except.map] <;>
    refine ⟨_, rfl, ?_, ?_⟩ <;>
    first
      | (intro h1 h2; exfalso; omega)
      | simp [publishedOn]

/-- C9 amended at a concrete input: one subscriber on the detailed channel at
every reading, none on the brief channel. -/
theorem handleEvent_channels_witness :
    readingsDetailed.infoGuard = readingsDetailed.infoGate ∧
      readingsDetailed.infoExGuard = readingsDetailed.infoExGate ∧
      ∃ w', handleEvent sampleEnv readingsDetailed (.rtabmapEvent sampleExtended) emptyWorld
          = .ok w' ∧
        publishedOn emptyWorld w' = [Channel.detailed] := by
  obtain ⟨w', hrun, -, hsame⟩ :=
    handleEvent_channels sampleEnv readingsDetailed sampleExtended emptyWorld
  exact ⟨rfl, rfl, w', hrun, hsame rfl rfl⟩

/-- The bounds check of the model is effective: a copy into a value vector
that is too short raises the out-of-range error. -/
theorem copyKeyPoints_short_vector :
    copyKeyPoints [(7, kp1)] ⟨0, [], []⟩ = .error Exception.outOfRange := by
  rfl

end Rtabmap
